import Mathlib

/-
Shallow embedding of src/main.py: a FastAPI backend with a translation proxy
endpoint (POST /translate), theme persistence (GET /themes) and a database
diagnostic endpoint (GET /test). Pure Python string operations are embedded
as Lean functions; the external collaborators (the translation provider
reached by requests.post, the document store behind get_documents, the
process environment) are passed in as explicit values describing what the
single interaction with them does.
-/

/-- The whitespace characters removed by Python str.strip() with no
    arguments, ASCII range: space, tab, newline, carriage return, vertical
    tab, form feed. -/
def isPySpace (c : Char) : Bool :=
  c = ' ' || c = '\t' || c = '\n' || c = '\r' || c = Char.ofNat 11 || c = Char.ofNat 12

/-- Python str.strip(): remove leading and trailing whitespace. -/
def pyStrip (s : String) : String :=
  String.mk (((s.toList.dropWhile isPySpace).reverse.dropWhile isPySpace).reverse)

/-- The source field of the inbound JSON body: the key may be absent, be
    JSON null, or carry a string. -/
inductive SourceField
| absent
| null
| given (s : String)
deriving DecidableEq, Repr

/-- The raw JSON body of a POST /translate request, before pydantic
    validation runs. none for text or target means the key is absent or not
    a string. -/
structure RawBody where
  text : Option String
  source : SourceField
  target : Option String
deriving DecidableEq, Repr

/-- The validated request model TranslateRequest (main.py lines 21-24):
    text is a str with min_length 1, source is Optional[str] with default
    "auto" (none models JSON null), target is a required str. -/
structure TranslateRequest where
  text : String
  source : Option String
  target : String
deriving DecidableEq, Repr

/-- Pydantic validation of TranslateRequest: text must be present with
    min_length 1, target must be present; an absent source takes the field
    default "auto", an explicit JSON null stays None. Returns none when
    validation fails, in which case FastAPI answers 422 and the handler body
    never runs. -/
def validateTranslateRequest (b : RawBody) : Option TranslateRequest :=
  match b.text, b.target with
  | some t, some tgt =>
    if 1 ≤ t.length then
      some { text := t
           , source :=
               match b.source with
               | .absent => some "auto"
               | .null => none
               | .given s => some s
           , target := tgt }
    else none
  | _, _ => none

/-- The form payload handed to requests.post (main.py lines 44-49). -/
structure OutboundRequest where
  q : String
  source : String
  target : String
  format : String
deriving DecidableEq, Repr

/-- The timeout keyword argument of the outbound requests.post call
    (main.py line 50). -/
def outboundTimeout : Nat := 15

/-- Python `req.source or "auto"` (main.py line 46): None and the empty
    string are falsy, so both fall back to "auto". -/
def orAuto : Option String → String
| none => "auto"
| some s => if s = "" then "auto" else s

/-- The outbound payload built from a validated request: q is the raw
    untrimmed text, source goes through `or "auto"`, format is the literal
    "text". -/
def outboundOf (req : TranslateRequest) : OutboundRequest :=
  { q := req.text, source := orAuto req.source, target := req.target, format := "text" }

/-- The parsed JSON body of a provider response, reduced to the only field
    the handler reads: the result of data.get with key translatedText, none
    when the key is absent or JSON null. -/
structure ParsedBody where
  translatedText : Option String
deriving DecidableEq, Repr

/-- Outcome of the single outbound requests.post call: requests.Timeout
    raised because the provider did not answer within outboundTimeout
    seconds; some other exception raised by the client (connection refused,
    DNS failure, ...) whose str() is msg; or an HTTP response carrying a
    status code, the decoded body text, and the result of resp.json() - an
    error message when the body is not parseable as the expected structure,
    otherwise the parsed dictionary. -/
inductive CallOutcome
| timeout
| exc (msg : String)
| response (status : Nat) (body : String) (parse : Except String ParsedBody)

/-- A Python exception escaping a statement of the try block: an
    HTTPException raised by the handler itself, requests.Timeout, or any
    other exception with its message. -/
inductive PyExc
| httpExc (status : Nat) (detail : String)
| timeoutExc
| otherExc (msg : String)
deriving DecidableEq, Repr

/-- Python str(e) for exceptions the handler catches: a starlette
    HTTPException prints as its status code, a colon and the detail; other
    exceptions print their message; requests.Timeout with no arguments
    prints as the empty string. -/
def strOfExc : PyExc → String
| .httpExc s d => toString s ++ ": " ++ d
| .timeoutExc => ""
| .otherExc m => m

/-- The body of the try block (main.py lines 42-58): issue the outbound
    call; on a non-200 status raise HTTPException 502 whose detail carries
    the first 200 characters of the body; parse the JSON (a parse failure
    raises); when translatedText is missing or falsy raise HTTPException
    502 with the generic invalid-response message; otherwise return the
    translated text. -/
def tryBody (o : CallOutcome) : Except PyExc String :=
  match o with
  | .timeout => .error .timeoutExc
  | .exc m => .error (.otherExc m)
  | .response status body parse =>
    if status ≠ 200 then
      .error (.httpExc 502 ("Translation service error: " ++ body.take 200))
    else
      match parse with
      | .error m => .error (.otherExc m)
      | .ok d =>
        match d.translatedText with
        | none => .error (.httpExc 502 "Invalid response from translation service")
        | some t =>
          if t = "" then
            .error (.httpExc 502 "Invalid response from translation service")
          else .ok t

/-- An HTTP response from the backend: a 200 success whose body carries the
    translated string, or an error status with a detail string. -/
inductive HttpResponse
| success (translated : String)
| failure (status : Nat) (detail : String)
deriving DecidableEq, Repr

/-- The status code of a response. -/
def HttpResponse.status : HttpResponse → Nat
| .success _ => 200
| .failure s _ => s

/-- The translate handler body (main.py lines 32-62): whitespace-only text
    is rejected with 400 before any outbound call; otherwise the try block
    runs once and its outcome goes through the except clauses in order -
    requests.Timeout becomes 504, and every other exception, the handler's
    own HTTPExceptions included since HTTPException subclasses Exception,
    becomes 500 with detail str(e). The second component lists the outbound
    requests attempted. -/
def translateHandler (req : TranslateRequest) (o : CallOutcome) :
    HttpResponse × List OutboundRequest :=
  if pyStrip req.text = "" then
    (.failure 400 "Text cannot be empty", [])
  else
    ( match tryBody o with
      | .ok t => .success t
      | .error .timeoutExc => .failure 504 "Translation service timeout"
      | .error e => .failure 500 (strOfExc e)
    , [outboundOf req] )

/-- Stand-in detail string for the 422 body FastAPI produces on request
    validation failure; the claims depend only on the status code. -/
def validationDetail : String := "request validation error"

/-- The full POST /translate endpoint: pydantic validation first (422 on
    failure, before the handler body runs, with no outbound call), then the
    handler. -/
def translateEndpoint (b : RawBody) (o : CallOutcome) :
    HttpResponse × List OutboundRequest :=
  match validateTranslateRequest b with
  | none => (.failure 422 validationDetail, [])
  | some req => translateHandler req o

/-- A value stored in a theme document: a string, a Mongo ObjectId carrying
    its hex representation, or an integer. -/
inductive MVal
| str (s : String)
| oid (hex : String)
| int (n : Int)
deriving DecidableEq, Repr

/-- Python str() on a stored value; str of an ObjectId is its hex string. -/
def MVal.pyStr : MVal → String
| .str s => s
| .oid h => h
| .int n => toString n

/-- A document returned by the store: an insertion-ordered dictionary,
    embedded as an association list with pairwise distinct keys. -/
abbrev Doc := List (String × MVal)

/-- Python `d[k]` and `k in d`: first binding of the key, if any. -/
def Doc.lookup : Doc → String → Option MVal
| [], _ => none
| (k0, v0) :: rest, k => if k0 = k then some v0 else Doc.lookup rest k

/-- The keys of a document, in insertion order. -/
def Doc.keys (d : Doc) : List String := d.map Prod.fst

/-- Python `d[k] = v`: overwrite in place when the key exists, otherwise
    append the new binding at the end. -/
def Doc.set : Doc → String → MVal → Doc
| [], k, v => [(k, v)]
| (k0, v0) :: rest, k, v =>
  if k0 = k then (k, v) :: rest else (k0, v0) :: Doc.set rest k v

/-- Python `del d[k]`: remove the binding of the key. -/
def Doc.del : Doc → String → Doc
| [], _ => []
| (k0, v0) :: rest, k =>
  if k0 = k then rest else (k0, v0) :: Doc.del rest k

/-- The per-document rewrite in list_themes (main.py lines 71-74): when the
    document has an "_id" key, add an "id" key with its str() form and
    delete "_id"; otherwise leave the document alone. -/
def rekeyDoc (d : Doc) : Doc :=
  match Doc.lookup d "_id" with
  | some v => Doc.del (Doc.set d "id" (.str v.pyStr)) "_id"
  | none => d

/-- The response of GET /themes. -/
inductive ThemesResponse
| items (docs : List Doc)
| failure (status : Nat) (detail : String)

/-- GET /themes (main.py lines 65-77): the store call get_documents either
    returns the documents (already limited by the collaborator) or raises
    with message m; on success every document is rekeyed, on an exception
    the endpoint answers 500 with str(e). -/
def list_themes (store : Except String (List Doc)) : ThemesResponse :=
  match store with
  | .ok docs => .items (docs.map rekeyDoc)
  | .error m => .failure 500 m

/-- The database handle observed by GET /test: db is None, or a database
    object with an optional name attribute whose list_collection_names call
    either returns the collection names or raises with a message. -/
inductive DbState
| noDb
| someDb (name : Option String) (cols : Except String (List String))

/-- The GET /test response record; database_url and database_name start out
    as Python None, embedded as none. -/
structure TestResponse where
  backend : String
  database : String
  database_url : Option String
  database_name : Option String
  connection_status : String
  collections : List String
deriving DecidableEq, Repr

/-- Python truthiness of an os.getenv result: None (variable unset) and the
    empty string are falsy. -/
def envTruthy : Option String → Bool
| none => false
| some s => s ≠ ""

/-- GET /test (main.py lines 100-135), built by the same sequence of updates
    as the source: the initial record; the branch on whether db is None,
    with the inner try around list_collection_names; then the two final
    assignments that overwrite database_url and database_name from the
    truthiness of the environment values, unconditionally. -/
def test_database (dbs : DbState) (envUrl envName : Option String) : TestResponse :=
  let r0 : TestResponse :=
    { backend := "✅ Running"
    , database := "❌ Not Available"
    , database_url := none
    , database_name := none
    , connection_status := "Not Connected"
    , collections := [] }
  let r1 : TestResponse :=
    match dbs with
    | .noDb => { r0 with database := "⚠️  Available but not initialized" }
    | .someDb name cols =>
      let r2 : TestResponse :=
        { r0 with
          database := "✅ Available"
        , database_url := some "✅ Configured"
        , database_name := some (match name with | some n => n | none => "✅ Connected")
        , connection_status := "Connected" }
      match cols with
      | .ok cs =>
        { r2 with collections := cs.take 10, database := "✅ Connected & Working" }
      | .error m =>
        { r2 with database := "⚠️  Connected but Error: " ++ m.take 50 }
  { r1 with
    database_url := some (if envTruthy envUrl then "✅ Set" else "❌ Not Set")
  , database_name := some (if envTruthy envName then "✅ Set" else "❌ Not Set") }

/-- A string passes the min_length 1 check exactly when it is nonempty. -/
theorem length_pos_iff (t : String) : 1 ≤ t.length ↔ t ≠ "" := by
  cases t with
  | mk l =>
    cases l with
    | nil => simp [String.length]
    | cons c cs =>
      simp only [String.length, List.length_cons, ne_eq]
      constructor
      · intro _ h
        exact List.cons_ne_nil c cs (congrArg String.data h)
      · intro _
        omega

/-- Validation of a body with nonempty text and a present target succeeds,
    resolving the source field through the pydantic default. -/
theorem validate_accepted (t tgt : String) (src : SourceField) (ht : t ≠ "") :
    validateTranslateRequest ⟨some t, src, some tgt⟩
      = some ⟨t,
          (match src with
           | .absent => some "auto"
           | .null => none
           | .given s => some s), tgt⟩ := by
  simp only [validateTranslateRequest]
  rw [if_pos ((length_pos_iff t).mpr ht)]

/-- On a validated request the endpoint is the handler body. -/
theorem endpoint_accepted (t tgt : String) (src : SourceField) (o : CallOutcome)
    (ht : t ≠ "") :
    translateEndpoint ⟨some t, src, some tgt⟩ o
      = translateHandler ⟨t,
          (match src with
           | .absent => some "auto"
           | .null => none
           | .given s => some s), tgt⟩ o := by
  unfold translateEndpoint
  rw [validate_accepted t tgt src ht]

/-- A string whose strip is nonempty is nonempty. -/
theorem ne_empty_of_pyStrip (t : String) (hs : pyStrip t ≠ "") : t ≠ "" := by
  intro h
  exact hs (by rw [h]; rfl)

/-- Inversion of a successful validation: the request carries the raw text
    and target, and the text passed the min_length 1 check. -/
theorem validate_inv (b : RawBody) (req : TranslateRequest)
    (hv : validateTranslateRequest b = some req) :
    b.text = some req.text ∧ 1 ≤ req.text.length ∧ b.target = some req.target := by
  obtain ⟨text, src, tgt⟩ := b
  cases text with
  | none => simp [validateTranslateRequest] at hv
  | some t =>
    cases tgt with
    | none => simp [validateTranslateRequest] at hv
    | some tg =>
      simp only [validateTranslateRequest] at hv
      by_cases hl : 1 ≤ t.length
      · rw [if_pos hl] at hv
        injection hv with h
        subst h
        exact ⟨rfl, hl, rfl⟩
      · rw [if_neg hl] at hv
        cases hv

set_option maxRecDepth 8192 in
/-- Claim C1 fails on the code: with text "Hello" and target "es", when the
    provider answers 503 with body "Service Unavailable", the endpoint does
    not answer 502. The HTTPException 502 raised on the non-200 branch is
    itself caught by the generic `except Exception` clause and re-raised as
    a 500 whose detail is str(e) - which still carries the truncated
    provider body. -/
theorem c1_non200_gives_500 :
    translateEndpoint ⟨some "Hello", .absent, some "es"⟩
        (.response 503 "Service Unavailable" (.error "json decode error"))
      = (.failure 500 "502: Translation service error: Service Unavailable",
         [{ q := "Hello", source := "auto", target := "es", format := "text" }])
    ∧ (translateEndpoint ⟨some "Hello", .absent, some "es"⟩
        (.response 503 "Service Unavailable" (.error "json decode error"))).fst.status
      ≠ 502 := by
  constructor
  · rfl
  · decide

set_option maxRecDepth 8192 in
/-- Claim C2 fails on the code: with text "Hello" and target "es", when the
    provider answers 200 with a body whose translatedText is missing, the
    endpoint answers 500, not 502: the HTTPException 502 raised on the
    invalid-response branch is caught by the generic `except Exception`
    clause and re-raised as 500. A 200 body that is not parseable at all
    also lands on 500, with the parser's message as detail. -/
theorem c2_invalid_body_gives_500 :
    translateEndpoint ⟨some "Hello", .absent, some "es"⟩
        (.response 200 "ok-body" (.ok ⟨none⟩))
      = (.failure 500 "502: Invalid response from translation service",
         [{ q := "Hello", source := "auto", target := "es", format := "text" }])
    ∧ translateEndpoint ⟨some "Hello", .absent, some "es"⟩
        (.response 200 "not json" (.error "Expecting value: line 1 column 1"))
      = (.failure 500 "Expecting value: line 1 column 1",
         [{ q := "Hello", source := "auto", target := "es", format := "text" }])
    ∧ translateEndpoint ⟨some "Hello", .absent, some "es"⟩
        (.response 200 "empty-field" (.ok ⟨some ""⟩))
      = (.failure 500 "502: Invalid response from translation service",
         [{ q := "Hello", source := "auto", target := "es", format := "text" }]) := by
  exact ⟨rfl, rfl, rfl⟩

/-- Claim C4: when the outbound call exceeds the timeout bound - which is 15
    seconds - requests.Timeout is raised, the first except clause catches it
    and the endpoint fails with GatewayTimeout 504. -/
theorem c4_timeout_504 (t tgt : String) (src : SourceField)
    (hs : pyStrip t ≠ "") :
    (translateEndpoint ⟨some t, src, some tgt⟩ .timeout).fst
      = .failure 504 "Translation service timeout"
    ∧ outboundTimeout = 15 := by
  rw [endpoint_accepted t tgt src .timeout (ne_empty_of_pyStrip t hs)]
  unfold translateHandler
  rw [if_neg hs]
  exact ⟨rfl, rfl⟩

/-- Claim C4 witness at text "Hello", target "es". -/
theorem c4_timeout_504_witness :
    (translateEndpoint ⟨some "Hello", .absent, some "es"⟩ .timeout).fst
      = .failure 504 "Translation service timeout"
    ∧ outboundTimeout = 15 :=
  c4_timeout_504 "Hello" "es" .absent (by decide)

/-- Claim C5: when the provider answers 200 with a body whose translatedText
    is a nonempty string, the endpoint succeeds and returns exactly that
    string as the translated field. -/
theorem c5_success_200 (t tgt body trans : String) (src : SourceField)
    (hs : pyStrip t ≠ "") (htr : trans ≠ "") :
    (translateEndpoint ⟨some t, src, some tgt⟩
        (.response 200 body (.ok ⟨some trans⟩))).fst = .success trans := by
  rw [endpoint_accepted t tgt src _ (ne_empty_of_pyStrip t hs)]
  unfold translateHandler
  rw [if_neg hs]
  simp [tryBody, htr]

/-- Claim C5 witness: text "Hello", target "es", provider body with
    translatedText "Hola". -/
theorem c5_success_200_witness :
    (translateEndpoint ⟨some "Hello", .absent, some "es"⟩
        (.response 200 "provider-body" (.ok ⟨some "Hola"⟩))).fst
      = .success "Hola" :=
  c5_success_200 "Hello" "es" "provider-body" "Hola" .absent (by decide) (by decide)

/-- Claim C6: every accepted request issues exactly one outbound request,
    with q the raw untrimmed text, source the given source or "auto" when
    the field is omitted, null or empty, target as given, and format the
    literal "text" - whatever the call's outcome is. -/
theorem c6_single_outbound (t tgt : String) (src : SourceField) (o : CallOutcome)
    (hs : pyStrip t ≠ "") :
    (translateEndpoint ⟨some t, src, some tgt⟩ o).snd
      = [{ q := t
         , source :=
             match src with
             | .absent => "auto"
             | .null => "auto"
             | .given s => if s = "" then "auto" else s
         , target := tgt
         , format := "text" }] := by
  rw [endpoint_accepted t tgt src o (ne_empty_of_pyStrip t hs)]
  unfold translateHandler
  rw [if_neg hs]
  cases src <;> simp [outboundOf, orAuto]

/-- Claim C6 witness: source omitted resolves to "auto". -/
theorem c6_single_outbound_witness :
    (translateEndpoint ⟨some "Hello", .absent, some "es"⟩ .timeout).snd
      = [{ q := "Hello", source := "auto", target := "es", format := "text" }] :=
  c6_single_outbound "Hello" "es" .absent .timeout (by decide)

/-- Claim C7: an exception from the outbound call that is not a
    requests.Timeout - a connection refused, a DNS failure - and an
    exception from parsing the 200 response body both fall to the generic
    `except Exception` clause: InternalError 500 with the stringified cause
    as detail. -/
theorem c7_internal_500 (t tgt m body : String) (src : SourceField)
    (hs : pyStrip t ≠ "") :
    (translateEndpoint ⟨some t, src, some tgt⟩ (.exc m)).fst = .failure 500 m
    ∧ (translateEndpoint ⟨some t, src, some tgt⟩
        (.response 200 body (.error m))).fst = .failure 500 m := by
  rw [endpoint_accepted t tgt src (.exc m) (ne_empty_of_pyStrip t hs),
      endpoint_accepted t tgt src (.response 200 body (.error m)) (ne_empty_of_pyStrip t hs)]
  unfold translateHandler
  simp only [if_neg hs]
  exact ⟨rfl, rfl⟩

/-- Claim C7 witness at a connection-refused message. -/
theorem c7_internal_500_witness :
    (translateEndpoint ⟨some "Hello", .absent, some "es"⟩
        (.exc "Connection refused")).fst = .failure 500 "Connection refused"
    ∧ (translateEndpoint ⟨some "Hello", .absent, some "es"⟩
        (.response 200 "bad json" (.error "Connection refused"))).fst
      = .failure 500 "Connection refused" :=
  c7_internal_500 "Hello" "es" "Connection refused" "bad json" .absent (by decide)

/-- Claim C10: a body whose text is the empty string is rejected by the
    request-model validation (min_length 1) with 422 before the handler body
    runs and without any outbound call; conversely, the handler's 400
    "Text cannot be empty" branch is reachable only when the text is a
    nonempty string made of whitespace only. -/
theorem c10_min_length_guard (b : RawBody) (o : CallOutcome) :
    (b.text = some "" →
      translateEndpoint b o = (.failure 422 validationDetail, []))
    ∧ ((translateEndpoint b o).fst = .failure 400 "Text cannot be empty" →
        ∃ t, b.text = some t ∧ t ≠ "" ∧ pyStrip t = "") := by
  constructor
  · intro htext
    obtain ⟨text, src, tgt⟩ := b
    simp only at htext
    subst htext
    cases tgt <;> simp [translateEndpoint, validateTranslateRequest, String.length]
  · intro h400
    cases hval : validateTranslateRequest b with
    | none =>
      have hend : translateEndpoint b o = (.failure 422 validationDetail, []) := by
        unfold translateEndpoint
        rw [hval]
      rw [hend] at h400
      simp at h400
    | some req =>
      have hend : translateEndpoint b o = translateHandler req o := by
        unfold translateEndpoint
        rw [hval]
      rw [hend] at h400
      obtain ⟨hbt, hlen, _⟩ := validate_inv b req hval
      unfold translateHandler at h400
      by_cases hstrip : pyStrip req.text = ""
      · exact ⟨req.text, hbt, (length_pos_iff req.text).mp hlen, hstrip⟩
      · rw [if_neg hstrip] at h400
        exfalso
        cases htb : tryBody o with
        | ok v => rw [htb] at h400; simp at h400
        | error e =>
          rw [htb] at h400
          cases e <;> simp [strOfExc] at h400

/-- Claim C10 witness: the empty text with target "es" is answered 422 with
    no outbound call. -/
theorem c10_min_length_guard_witness :
    translateEndpoint ⟨some "", .absent, some "es"⟩ (.exc "never raised")
      = (.failure 422 validationDetail, []) :=
  (c10_min_length_guard ⟨some "", .absent, some "es"⟩ (.exc "never raised")).1 rfl

/-- Claim C3 fails on the code as stated: the empty text with target "es" is
    not answered with InvalidInput 400 - pydantic min_length 1 rejects it
    with 422 before the handler's empty-text check can run. -/
theorem c3_empty_text_not_400 :
    (translateEndpoint ⟨some "", .absent, some "es"⟩ (.exc "never raised")).fst.status
      = 422
    ∧ (translateEndpoint ⟨some "", .absent, some "es"⟩ (.exc "never raised")).fst.status
      ≠ 400 := by
  exact ⟨rfl, by decide⟩

/-- Claim C3 amended: a request whose text is empty or whitespace-only never
    reaches the provider; a nonempty whitespace-only text is answered 400
    InvalidInput by the handler, while the empty text is already rejected
    with 422 by request validation. -/
theorem c3_whitespace_rejected (t tgt : String) (src : SourceField) (o : CallOutcome)
    (hs : pyStrip t = "") :
    (translateEndpoint ⟨some t, src, some tgt⟩ o).snd = []
    ∧ (translateEndpoint ⟨some t, src, some tgt⟩ o).fst
      = (if t = "" then .failure 422 validationDetail
         else .failure 400 "Text cannot be empty") := by
  by_cases ht : t = ""
  · subst ht
    exact ⟨rfl, rfl⟩
  · rw [endpoint_accepted t tgt src o ht]
    unfold translateHandler
    rw [if_pos hs, if_neg ht]
    exact ⟨rfl, rfl⟩

/-- Claim C3 witness at the spec's scenario: two-space text, target "es". -/
theorem c3_whitespace_rejected_witness :
    (translateEndpoint ⟨some "  ", .absent, some "es"⟩ (.exc "never raised")).snd = []
    ∧ (translateEndpoint ⟨some "  ", .absent, some "es"⟩ (.exc "never raised")).fst
      = (if "  " = "" then .failure 422 validationDetail
         else .failure 400 "Text cannot be empty") :=
  c3_whitespace_rejected "  " "es" .absent (.exc "never raised") (by decide)

/-- A key outside a document's key list has no binding. -/
theorem lookup_eq_none_of_not_mem (d : Doc) (k : String) (h : k ∉ Doc.keys d) :
    Doc.lookup d k = none := by
  induction d with
  | nil => rfl
  | cons p rest ih =>
    obtain ⟨k0, v0⟩ := p
    simp only [Doc.keys, List.map_cons, List.mem_cons, not_or] at h
    rw [Doc.lookup, if_neg (fun hk => h.1 hk.symm)]
    exact ih h.2

/-- Dictionary assignment binds the assigned key. -/
theorem lookup_set_self (d : Doc) (k : String) (v : MVal) :
    Doc.lookup (Doc.set d k v) k = some v := by
  induction d with
  | nil => simp [Doc.set, Doc.lookup]
  | cons p rest ih =>
    obtain ⟨k0, v0⟩ := p
    by_cases h0 : k0 = k
    · subst h0
      simp [Doc.set, Doc.lookup]
    · simp [Doc.set, h0, Doc.lookup, ih]

/-- Dictionary assignment leaves the other keys alone. -/
theorem lookup_set_ne (d : Doc) (k q : String) (v : MVal) (h : q ≠ k) :
    Doc.lookup (Doc.set d k v) q = Doc.lookup d q := by
  induction d with
  | nil => simp [Doc.set, Doc.lookup, Ne.symm h]
  | cons p rest ih =>
    obtain ⟨k0, v0⟩ := p
    by_cases h0 : k0 = k
    · subst h0
      simp [Doc.set, Doc.lookup, Ne.symm h]
    · by_cases hq : k0 = q
      · simp [Doc.set, h0, Doc.lookup, hq, h]
      · simp [Doc.set, h0, Doc.lookup, hq, ih]

/-- Dictionary deletion leaves the other keys alone. -/
theorem lookup_del_ne (d : Doc) (k q : String) (h : q ≠ k) :
    Doc.lookup (Doc.del d k) q = Doc.lookup d q := by
  induction d with
  | nil => rfl
  | cons p rest ih =>
    obtain ⟨k0, v0⟩ := p
    by_cases h0 : k0 = k
    · subst h0
      simp [Doc.del, Doc.lookup, Ne.symm h]
    · by_cases hq : k0 = q
      · simp [Doc.del, h0, Doc.lookup, hq, h]
      · simp [Doc.del, h0, Doc.lookup, hq, ih]

/-- In a document with pairwise distinct keys, deletion unbinds the key. -/
theorem lookup_del_self (d : Doc) (k : String) (hnd : (Doc.keys d).Nodup) :
    Doc.lookup (Doc.del d k) k = none := by
  induction d with
  | nil => rfl
  | cons p rest ih =>
    obtain ⟨k0, v0⟩ := p
    simp only [Doc.keys, List.map_cons, List.nodup_cons] at hnd
    by_cases h0 : k0 = k
    · subst h0
      simp only [Doc.del, if_pos rfl]
      exact lookup_eq_none_of_not_mem rest k0 hnd.1
    · simp [Doc.del, h0, Doc.lookup, ih hnd.2]

/-- The keys after an assignment: unchanged when the key was present,
    the key appended otherwise. -/
theorem keys_set (d : Doc) (k : String) (v : MVal) :
    Doc.keys (Doc.set d k v)
      = if k ∈ Doc.keys d then Doc.keys d else Doc.keys d ++ [k] := by
  induction d with
  | nil => simp [Doc.set, Doc.keys]
  | cons p rest ih =>
    obtain ⟨k0, v0⟩ := p
    simp only [Doc.keys, List.map_cons] at ih ⊢
    by_cases h0 : k0 = k
    · subst h0
      simp [Doc.set]
    · have hk0 : ¬(k = k0) := fun hh => h0 hh.symm
      simp only [Doc.set, if_neg h0, List.map_cons, ih, List.mem_cons, hk0, false_or]
      by_cases hm : k ∈ List.map Prod.fst rest
      · simp [hm]
      · simp [hm]

/-- Assignment preserves distinctness of the keys. -/
theorem keys_set_nodup (d : Doc) (k : String) (v : MVal)
    (hnd : (Doc.keys d).Nodup) : (Doc.keys (Doc.set d k v)).Nodup := by
  rw [keys_set]
  by_cases hm : k ∈ Doc.keys d
  · rwa [if_pos hm]
  · rw [if_neg hm]
    simp [List.nodup_append, hnd, hm]

/-- Claim C8: a successful GET /themes answers with exactly the documents
    the store returned, each rewritten so that the "_id" key is gone and an
    "id" key holds the str() form of the original "_id" value while every
    other key keeps its binding; a storage failure answers 500 with the
    exception's message. -/
theorem c8_themes_rekey (docs : List Doc) (d : Doc) (v : MVal) (m k : String)
    (hnd : (Doc.keys d).Nodup) (hid : Doc.lookup d "_id" = some v)
    (hk1 : k ≠ "_id") (hk2 : k ≠ "id") :
    list_themes (.ok docs) = .items (docs.map rekeyDoc)
    ∧ Doc.lookup (rekeyDoc d) "id" = some (.str v.pyStr)
    ∧ Doc.lookup (rekeyDoc d) "_id" = none
    ∧ Doc.lookup (rekeyDoc d) k = Doc.lookup d k
    ∧ list_themes (.error m) = .failure 500 m := by
  have hre : rekeyDoc d = Doc.del (Doc.set d "id" (.str v.pyStr)) "_id" := by
    unfold rekeyDoc
    rw [hid]
  refine ⟨rfl, ?_, ?_, ?_, rfl⟩
  · rw [hre, lookup_del_ne _ _ _ (by decide), lookup_set_self]
  · rw [hre]
    exact lookup_del_self _ _ (keys_set_nodup d "id" (.str v.pyStr) hnd)
  · rw [hre, lookup_del_ne _ _ _ hk1, lookup_set_ne _ _ _ _ hk2]

/-- Claim C8 witness at a one-document store with an ObjectId and a name. -/
theorem c8_themes_rekey_witness :
    list_themes (.ok [[("_id", MVal.oid "65a1b2"), ("name", MVal.str "dark")]])
      = .items ([[("_id", MVal.oid "65a1b2"), ("name", MVal.str "dark")]].map rekeyDoc)
    ∧ Doc.lookup (rekeyDoc [("_id", MVal.oid "65a1b2"), ("name", MVal.str "dark")]) "id"
      = some (.str (MVal.oid "65a1b2").pyStr)
    ∧ Doc.lookup (rekeyDoc [("_id", MVal.oid "65a1b2"), ("name", MVal.str "dark")]) "_id"
      = none
    ∧ Doc.lookup (rekeyDoc [("_id", MVal.oid "65a1b2"), ("name", MVal.str "dark")]) "name"
      = Doc.lookup [("_id", MVal.oid "65a1b2"), ("name", MVal.str "dark")] "name"
    ∧ list_themes (.error "storage down") = .failure 500 "storage down" :=
  c8_themes_rekey [[("_id", MVal.oid "65a1b2"), ("name", MVal.str "dark")]]
    [("_id", MVal.oid "65a1b2"), ("name", MVal.str "dark")]
    (MVal.oid "65a1b2") "storage down" "name"
    (by decide) (by decide) (by decide) (by decide)

/-- Claim C9 fails on the code as stated: DATABASE_URL set to the empty
    string is a set environment variable, yet the response reports Not Set,
    while a non-empty value reports Set - the field follows the Python
    truthiness of the value, not merely whether the variable is set. -/
theorem c9_empty_env_says_not_set :
    (some "" : Option String).isSome = true
    ∧ (test_database .noDb (some "") none).database_url = some "❌ Not Set"
    ∧ (test_database .noDb (some "x") none).database_url = some "✅ Set" := by
  exact ⟨rfl, rfl, rfl⟩

/-- Claim C9 amended: in every GET /test response the database_url and
    database_name fields depend only on whether the corresponding
    environment value is truthy - a non-empty string - and report Set
    exactly then: the final assignments unconditionally overwrite whatever
    the earlier database-connectivity branches wrote, so the database state
    never influences these two fields. -/
theorem c9_env_overwrites (dbs : DbState) (envUrl envName : Option String) :
    (test_database dbs envUrl envName).database_url
      = some (if envTruthy envUrl then "✅ Set" else "❌ Not Set")
    ∧ (test_database dbs envUrl envName).database_name
      = some (if envTruthy envName then "✅ Set" else "❌ Not Set") := by
  cases dbs with
  | noDb => exact ⟨rfl, rfl⟩
  | someDb name cols => cases cols <;> exact ⟨rfl, rfl⟩
